import Mathlib

/-!
Verification development for the medication reminder bot.

The definitions below are a shallow embedding of the bot's dose state
machine and store operations:

* `updateLog` / `updateMedicationLogStatus` embed
  `updateMedicationLogStatus` from the database module.
* `createMedicationLog`, `getMedicationLogByScheduleAndDate`,
  `getSchedulesByUserId`, `createSchedule`, `initDailySchedule` and
  `setupDefaultSchedules` embed the store and initializer functions.
* `mealRemindStep` embeds the per-(user, schedule, log) loop body of
  `sendReminderForMealType` (scheduler module, cron-per-slot iteration).
* `retryStep` embeds the per-log loop body of `checkRetryNeeded`.
* `timedStep` embeds the per-(schedule, log) loop body of
  `checkAndSendReminders`.
* `ackStep` / `snoozeStep` embed the postback branches of
  `handleWebhookEvent` for an already-located log.

Timestamps are modelled as natural numbers counting minutes, matching the
minute arithmetic `Math.floor((now - lastReminded) / (1000 * 60))` used by
the code.  Each step returns the net record plus the ordered list of side
effects (store writes and outbound messages) so that dispatch counts and
persist/send ordering can be stated.
-/

namespace MedBot

/-- The four record states used by the code (string literals in JS). -/
inductive Status where
  | PENDING
  | SNOOZED
  | TAKEN
  | MISSED
deriving DecidableEq, Repr

/-- A medication log row, as created by `createMedicationLog`. -/
structure MedicationLog where
  id : Nat
  schedule_id : Nat
  user_id : Nat
  date : String
  status : Status
  retry_count : Nat
  last_reminded_at : Option Nat
  taken_at : Option Nat
deriving DecidableEq, Repr

/-- A schedule row, as created by `createSchedule`. -/
structure Schedule where
  id : Nat
  user_id : Nat
  meal_type : String
  default_time : String
  medicines : List String
  is_second_dose : Bool
  linked_schedule_id : Option Nat
  link_delay_minutes : Nat
deriving DecidableEq, Repr

/-- A user row, as created by `createUser`. -/
structure User where
  id : Nat
  line_user_id : String
deriving DecidableEq, Repr

/-- The optional-field argument (`additionalData`) of
`updateMedicationLogStatus`; `none` models an absent (undefined) field. -/
structure UpdateData where
  takenAt : Option Nat
  retryCount : Option Nat
  lastRemindedAt : Option Nat
deriving DecidableEq, Repr

/-- Field updates performed by `updateMedicationLogStatus` on the located
log: status is always overwritten; `taken_at` only when the new status is
TAKEN and a `takenAt` value was supplied; `retry_count` whenever
`retryCount` is defined; `last_reminded_at` whenever `lastRemindedAt` is
supplied (an ISO string is always truthy). -/
def updateLog (log : MedicationLog) (status : Status) (d : UpdateData) : MedicationLog :=
  let log1 := { log with status := status }
  let log2 :=
    match status, d.takenAt with
    | Status.TAKEN, some t => { log1 with taken_at := some t }
    | _, _ => log1
  let log3 :=
    match d.retryCount with
    | some r => { log2 with retry_count := r }
    | none => log2
  match d.lastRemindedAt with
  | some t => { log3 with last_reminded_at := some t }
  | none => log3

/-- `updateMedicationLogStatus` over the stored list of logs: find the
first log with the given id (JS `findIndex`), update it in place, return
the updated log; return `none` and leave the store untouched when the id
is absent. -/
def updateMedicationLogStatus :
    List MedicationLog → Nat → Status → UpdateData → Option MedicationLog × List MedicationLog
  | [], _, _, _ => (none, [])
  | l :: ls, logId, status, d =>
    if l.id = logId then
      let l1 := updateLog l status d
      (some l1, l1 :: ls)
    else
      let r := updateMedicationLogStatus ls logId status d
      (r.1, l :: r.2)

/-- Outbound side effects, in program order: a Flex reminder push, a plain
text push, or a store write performed through `updateMedicationLogStatus`. -/
inductive Effect where
  | reminder (lineUserId : String) (scheduleId : Nat) (retryCount : Nat)
  | text (lineUserId : String) (msg : String)
  | persist (logId : Nat) (status : Status) (d : UpdateData)
deriving DecidableEq, Repr

/-- Warning text sent when the retry budget is exhausted. -/
def exceededMsg : String := "⚠️ 已超過最大提醒次數（3次），請記得盡快服用藥物！"

/-- Confirmation text sent on acknowledge. -/
def takenConfirmMsg : String := "✅ 已記錄！太棒了，記得按時服藥有助於健康！"

/-- Follow-up hint sent after acknowledging the western-medicine breakfast dose. -/
def westernFollowupMsg : String := "💡 提醒：請於 1 小時後（09:01）記得服用中藥哦！"

/-- Confirmation text sent on a snooze that stays under the retry budget. -/
def snoozeConfirmMsg (n : Nat) : String :=
  "⏰ 好的，下一次提醒將在 30 分鐘後發送（已提醒 " ++ toString n ++ "/3 次）"

/-- Per-(user, schedule, log) body of `sendReminderForMealType`: skip
TAKEN and MISSED records; when `retry_count` has reached 3, persist MISSED
and then send the one-time exceeded warning; otherwise send a reminder
(showing the current count) and persist SNOOZED with the count bumped. -/
def mealRemindStep (sched : Schedule) (user : User) (log : MedicationLog) (now : Nat) :
    MedicationLog × List Effect :=
  if log.status = Status.TAKEN then (log, [])
  else if log.status = Status.MISSED then (log, [])
  else
    let retryCount := log.retry_count
    if 3 ≤ retryCount then
      if log.status = Status.MISSED then (log, [])
      else
        let d : UpdateData := { takenAt := none, retryCount := none, lastRemindedAt := some now }
        (updateLog log Status.MISSED d,
         [Effect.persist log.id Status.MISSED d,
          Effect.text user.line_user_id exceededMsg])
    else
      let newRetryCount := retryCount + 1
      let d : UpdateData :=
        { takenAt := none, retryCount := some newRetryCount, lastRemindedAt := some now }
      (updateLog log Status.SNOOZED d,
       [Effect.reminder user.line_user_id sched.id retryCount,
        Effect.persist log.id Status.SNOOZED d])

/-- Per-log body of `checkRetryNeeded`.  The two `if` statements of the
source are mutually exclusive (`retry_count < 3` versus `3 ≤ retry_count`
on the same snapshot of the log, which is a spread copy), so chaining them
with else-if is equivalent.  A retry requires status SNOOZED and at least
30 minutes since `last_reminded_at`; it persists status PENDING with a
bumped count before sending.  The overdue branch requires 90 minutes,
`retry_count ≥ 3` and status PENDING, and persists MISSED. -/
def retryStep (sched : Option Schedule) (lineUserId : String) (log : MedicationLog) (now : Nat) :
    MedicationLog × List Effect :=
  match log.last_reminded_at with
  | none => (log, [])
  | some t =>
    let minutesDiff := now - t
    if 30 ≤ minutesDiff ∧ log.retry_count < 3 ∧ log.status = Status.SNOOZED then
      match sched with
      | some s =>
        let newRetryCount := log.retry_count + 1
        let d : UpdateData :=
          { takenAt := none, retryCount := some newRetryCount, lastRemindedAt := some now }
        (updateLog log Status.PENDING d,
         [Effect.persist log.id Status.PENDING d,
          Effect.reminder lineUserId s.id newRetryCount])
      | none => (log, [])
    else if 90 ≤ minutesDiff ∧ 3 ≤ log.retry_count ∧ log.status = Status.PENDING then
      let d : UpdateData := { takenAt := none, retryCount := none, lastRemindedAt := some now }
      (updateLog log Status.MISSED d, [Effect.persist log.id Status.MISSED d])
    else (log, [])

/-- Per-(schedule, log) body of `checkAndSendReminders` for a log that was
found for today (the surrounding loop skips missing logs): dispatch only
when the schedule's `default_time` equals the current wall-clock minute and
the status is PENDING or SNOOZED; a second dose with a linked schedule is
skipped unless the linked first-dose record exists and is TAKEN.  A
dispatch sends first and then persists the unchanged status with a fresh
`last_reminded_at`; `retry_count` is not touched. -/
def timedStep (sched : Schedule) (lineUserId : String) (log : MedicationLog)
    (firstDoseLog : Option MedicationLog) (currentTime : String) (now : Nat) :
    MedicationLog × List Effect :=
  if sched.default_time = currentTime then
    if log.status = Status.PENDING ∨ log.status = Status.SNOOZED then
      let prereqBlocked :=
        sched.is_second_dose && sched.linked_schedule_id.isSome &&
          (match firstDoseLog with
           | none => true
           | some f => f.status != Status.TAKEN)
      if prereqBlocked then (log, [])
      else
        let d : UpdateData := { takenAt := none, retryCount := none, lastRemindedAt := some now }
        (updateLog log log.status d,
         [Effect.reminder lineUserId sched.id log.retry_count,
          Effect.persist log.id log.status d])
    else (log, [])
  else (log, [])

/-- Postback branch `action = taken` of `handleWebhookEvent` for a log
found for (scheduleId, today): unconditionally persist TAKEN with the
action time and the client-reported retry count, send the confirmation,
and add the breakfast follow-up when the schedule is the western-medicine
slot.  There is no guard on the record's current status. -/
def ackStep (schedOpt : Option Schedule) (lineUserId : String) (log : MedicationLog)
    (reportedRetryCount : Nat) (now : Nat) : MedicationLog × List Effect :=
  let d : UpdateData :=
    { takenAt := some now, retryCount := some reportedRetryCount, lastRemindedAt := none }
  let log1 := updateLog log Status.TAKEN d
  let baseEffects := [Effect.persist log.id Status.TAKEN d,
                      Effect.text lineUserId takenConfirmMsg]
  match schedOpt with
  | some s =>
    if s.meal_type = "早餐後（西藥）" then
      (log1, baseEffects ++ [Effect.text lineUserId westernFollowupMsg])
    else (log1, baseEffects)
  | none => (log1, baseEffects)

/-- Postback branch `action = snooze` of `handleWebhookEvent` for a found
log: the new count is the client-reported count plus one; persist SNOOZED
with it; when it reaches 3, additionally persist MISSED (same count, same
action time) and send the exceeded warning instead of the snooze
confirmation.  There is no guard on the record's current status. -/
def snoozeStep (lineUserId : String) (log : MedicationLog)
    (reportedRetryCount : Nat) (now : Nat) : MedicationLog × List Effect :=
  let newRetryCount := reportedRetryCount + 1
  let d : UpdateData :=
    { takenAt := none, retryCount := some newRetryCount, lastRemindedAt := some now }
  let log1 := updateLog log Status.SNOOZED d
  if newRetryCount < 3 then
    (log1, [Effect.persist log.id Status.SNOOZED d,
            Effect.text lineUserId (snoozeConfirmMsg newRetryCount)])
  else
    let log2 := updateLog log1 Status.MISSED d
    (log2, [Effect.persist log.id Status.SNOOZED d,
            Effect.persist log.id Status.MISSED d,
            Effect.text lineUserId exceededMsg])

/-- Number of reminder dispatches in an effect trace. -/
def countReminders (tr : List Effect) : Nat :=
  tr.countP (fun e => match e with
    | Effect.reminder _ _ _ => true
    | _ => false)

/-- Number of exceeded-warning messages in an effect trace. -/
def countExceeded (tr : List Effect) : Nat :=
  tr.countP (fun e => match e with
    | Effect.text _ m => m == exceededMsg
    | _ => false)

/-- Iterate `mealRemindStep` (the cron fires `sendReminderForMealType`
repeatedly for the same slot); `times k` is the wall-clock minute of the
k-th evaluation.  Effects accumulate in order. -/
def mealIterate (sched : Schedule) (user : User) (times : Nat → Nat) :
    Nat → MedicationLog → MedicationLog × List Effect
  | 0, log => (log, [])
  | n + 1, log =>
    let r := mealIterate sched user times n log
    let r2 := mealRemindStep sched user r.1 (times n)
    (r2.1, r.2 ++ r2.2)

/-- A single operation applied to one record: one engine evaluation of any
of the three engine entry points, or one user action. -/
inductive Op where
  | mealTick (sched : Schedule) (user : User) (now : Nat)
  | retryTick (sched : Option Schedule) (lineUserId : String) (now : Nat)
  | timedTick (sched : Schedule) (lineUserId : String) (firstDoseLog : Option MedicationLog)
      (currentTime : String) (now : Nat)
  | ack (sched : Option Schedule) (lineUserId : String) (reportedRetryCount : Nat) (now : Nat)
  | snooze (lineUserId : String) (reportedRetryCount : Nat) (now : Nat)

/-- Whether an operation is an acknowledge action. -/
def Op.isAck : Op → Bool
  | Op.ack _ _ _ _ => true
  | _ => false

/-- Net record change of one operation. -/
def applyOp (log : MedicationLog) : Op → MedicationLog
  | Op.mealTick s u n => (mealRemindStep s u log n).1
  | Op.retryTick s uid n => (retryStep s uid log n).1
  | Op.timedTick s uid f ct n => (timedStep s uid log f ct n).1
  | Op.ack s uid rc n => (ackStep s uid log rc n).1
  | Op.snooze uid rc n => (snoozeStep uid log rc n).1

/-- Run a sequence of operations against one record. -/
def runOps (log : MedicationLog) (ops : List Op) : MedicationLog :=
  ops.foldl applyOp log

/-- The JSON-file store: users, schedules, medication logs, plus a counter
standing in for the uuid generator (each created row gets a fresh id). -/
structure DB where
  users : List User
  schedules : List Schedule
  medicationLogs : List MedicationLog
  nextId : Nat
deriving DecidableEq, Repr

/-- Key predicate used by both `getMedicationLogByScheduleAndDate` and the
duplicate check inside `createMedicationLog`. -/
def logKeyP (scheduleId : Nat) (date : String) : MedicationLog → Bool :=
  fun l => l.schedule_id == scheduleId && l.date == date

/-- `getSchedulesByUserId`: all schedules owned by the user. -/
def getSchedulesByUserId (db : DB) (userId : Nat) : List Schedule :=
  db.schedules.filter (fun s => s.user_id == userId)

/-- `getMedicationLogByScheduleAndDate`: first log matching the key. -/
def getMedicationLogByScheduleAndDate (db : DB) (scheduleId : Nat) (date : String) :
    Option MedicationLog :=
  db.medicationLogs.find? (logKeyP scheduleId date)

/-- `createMedicationLog`: find-or-create for the (schedule, date) key; a
fresh log starts PENDING with zero retries and no timestamps. -/
def createMedicationLog (db : DB) (scheduleId userId : Nat) (date : String) : DB :=
  match db.medicationLogs.find? (logKeyP scheduleId date) with
  | some _ => db
  | none =>
    { db with
      medicationLogs := db.medicationLogs ++
        [{ id := db.nextId, schedule_id := scheduleId, user_id := userId, date := date,
           status := Status.PENDING, retry_count := 0,
           last_reminded_at := none, taken_at := none }],
      nextId := db.nextId + 1 }

/-- `createSchedule`: always inserts a new schedule row (no duplicate
check); returns the new row's id alongside the store. -/
def createSchedule (db : DB) (userId : Nat) (mealType defaultTime : String)
    (medicines : List String) (isSecondDose : Bool) (linkedScheduleId : Option Nat)
    (linkDelayMinutes : Nat) : DB × Nat :=
  let sid := db.nextId
  ({ db with
     schedules := db.schedules ++
       [{ id := sid, user_id := userId, meal_type := mealType, default_time := defaultTime,
          medicines := medicines, is_second_dose := isSecondDose,
          linked_schedule_id := linkedScheduleId, link_delay_minutes := linkDelayMinutes }],
     nextId := db.nextId + 1 }, sid)

/-- Body of the inner loop of `initDailySchedule`: create today's log for
one schedule when it does not yet exist. -/
def initLogStep (userId : Nat) (today : String) (acc : DB) (s : Schedule) : DB :=
  match getMedicationLogByScheduleAndDate acc s.id today with
  | some _ => acc
  | none => createMedicationLog acc s.id userId today

/-- Inner loop of `initDailySchedule`: run `initLogStep` over one user's
schedules. -/
def initUserSchedules (db : DB) (userId : Nat) (scheds : List Schedule) (today : String) : DB :=
  scheds.foldl (initLogStep userId today) db

/-- Body of the outer loop of `initDailySchedule`: process one user. -/
def initUserStep (today : String) (acc : DB) (u : User) : DB :=
  initUserSchedules acc u.id (getSchedulesByUserId acc u.id) today

/-- `initDailySchedule`: run the inner loop for every user. -/
def initDailySchedule (db : DB) (today : String) : DB :=
  db.users.foldl (initUserStep today) db

/-- `setupDefaultSchedules` (first-contact seeding): create the four fixed
schedules — it reads the existing schedules but never removes or reuses
them — then create today's log for each of the four new schedule ids. -/
def setupDefaultSchedules (db : DB) (userId : Nat) (today : String) : DB :=
  let r1 := createSchedule db userId "早餐後（西藥）" "08:00" ["高血壓（西藥）"] false none 60
  let r2 := createSchedule r1.1 userId "早餐後（中藥）" "09:00" ["高血壓（中藥）"] true (some r1.2) 60
  let r3 := createSchedule r2.1 userId "午餐後" "13:00" ["高血壓（中藥）"] false none 60
  let r4 := createSchedule r3.1 userId "晚餐後" "19:00" ["高血壓（中藥）"] false none 60
  let db5 := createMedicationLog r4.1 r1.2 userId today
  let db6 := createMedicationLog db5 r2.2 userId today
  let db7 := createMedicationLog db6 r3.2 userId today
  createMedicationLog db7 r4.2 userId today

/-- Display label of a log's schedule (empty when the schedule is gone),
used to count records per catalog slot. -/
def scheduleMealType (db : DB) (scheduleId : Nat) : String :=
  match db.schedules.find? (fun s => s.id == scheduleId) with
  | some s => s.meal_type
  | none => ""

/-- Number of stored logs for one user, one catalog slot label and one day. -/
def countLogsForMeal (db : DB) (userId : Nat) (meal : String) (day : String) : Nat :=
  (db.medicationLogs.filter
    (fun l => l.user_id == userId && l.date == day &&
      scheduleMealType db l.schedule_id == meal)).length

/-- Whether a log for the (schedule, date) key exists. -/
def logKeyExists (db : DB) (scheduleId : Nat) (date : String) : Bool :=
  (getMedicationLogByScheduleAndDate db scheduleId date).isSome

/-- Number of stored logs for the (schedule, date) key. -/
def countKey (db : DB) (scheduleId : Nat) (date : String) : Nat :=
  db.medicationLogs.countP (logKeyP scheduleId date)

/-! ### Concrete fixtures used by counterexamples and witnesses -/

/-- A lunch schedule row. -/
def lunchSched : Schedule :=
  { id := 3, user_id := 1, meal_type := "午餐後", default_time := "13:00",
    medicines := ["高血壓（中藥）"], is_second_dose := false,
    linked_schedule_id := none, link_delay_minutes := 60 }

/-- The breakfast second-dose schedule row, linked to the first dose. -/
def secondDoseSched : Schedule :=
  { id := 4, user_id := 1, meal_type := "早餐後（中藥）", default_time := "09:00",
    medicines := ["高血壓（中藥）"], is_second_dose := true,
    linked_schedule_id := some 2, link_delay_minutes := 60 }

/-- A user row. -/
def userU : User := { id := 1, line_user_id := "U" }

/-- A freshly created log (as `createMedicationLog` produces). -/
def freshLog : MedicationLog :=
  { id := 7, schedule_id := 3, user_id := 1, date := "2025-01-01",
    status := Status.PENDING, retry_count := 0, last_reminded_at := none, taken_at := none }

/-- A record already acknowledged at minute 100 with two reminders sent. -/
def takenLog : MedicationLog :=
  { freshLog with
    status := Status.TAKEN, retry_count := 2,
    last_reminded_at := some 80, taken_at := some 100 }

/-- A record with five reminders recorded. -/
def retry5Log : MedicationLog :=
  { freshLog with status := Status.SNOOZED, retry_count := 5, last_reminded_at := some 80 }

/-- A SNOOZED record at the retry ceiling. -/
def snoozed3Log : MedicationLog :=
  { freshLog with status := Status.SNOOZED, retry_count := 3, last_reminded_at := some 80 }

/-- A PENDING record last reminded at minute 0, one reminder so far. -/
def pendingMidLog : MedicationLog :=
  { freshLog with status := Status.PENDING, retry_count := 1, last_reminded_at := some 0 }

/-- Today's record of the second-dose slot. -/
def secondDoseLog : MedicationLog :=
  { freshLog with id := 8, schedule_id := 4 }

/-- Today's record of the prerequisite (first-dose) slot, still PENDING. -/
def firstDoseLogPending : MedicationLog :=
  { freshLog with id := 9, schedule_id := 2 }

/-- A one-user empty store. -/
def db0 : DB :=
  { users := [userU], schedules := [], medicationLogs := [], nextId := 10 }

/-! ### Field equations for `updateLog` -/

theorem updateLog_status (log : MedicationLog) (st : Status) (d : UpdateData) :
    (updateLog log st d).status = st := by
  cases st <;> rcases d with ⟨a, r, c⟩ <;> cases a <;> cases r <;> cases c <;> rfl

theorem updateLog_id (log : MedicationLog) (st : Status) (d : UpdateData) :
    (updateLog log st d).id = log.id := by
  cases st <;> rcases d with ⟨a, r, c⟩ <;> cases a <;> cases r <;> cases c <;> rfl

theorem updateLog_retry_some (log : MedicationLog) (st : Status) (a c : Option Nat) (r : Nat) :
    (updateLog log st { takenAt := a, retryCount := some r, lastRemindedAt := c }).retry_count
      = r := by
  cases st <;> cases a <;> cases c <;> rfl

theorem updateLog_retry_none (log : MedicationLog) (st : Status) (a c : Option Nat) :
    (updateLog log st { takenAt := a, retryCount := none, lastRemindedAt := c }).retry_count
      = log.retry_count := by
  cases st <;> cases a <;> cases c <;> rfl

theorem updateLog_taken_at_of_none (log : MedicationLog) (st : Status) (r c : Option Nat) :
    (updateLog log st { takenAt := none, retryCount := r, lastRemindedAt := c }).taken_at
      = log.taken_at := by
  cases st <;> cases r <;> cases c <;> rfl

theorem updateLog_taken_at_taken (log : MedicationLog) (r c : Option Nat) (t : Nat) :
    (updateLog log Status.TAKEN
      { takenAt := some t, retryCount := r, lastRemindedAt := c }).taken_at = some t := by
  cases r <;> cases c <;> rfl

theorem updateLog_last_some (log : MedicationLog) (st : Status) (a r : Option Nat) (t : Nat) :
    (updateLog log st
      { takenAt := a, retryCount := r, lastRemindedAt := some t }).last_reminded_at = some t := by
  cases st <;> cases a <;> cases r <;> rfl

/-! ### Counterexamples -/

/-- Claim C1 is false on the code: `handleWebhookEvent` applies an
acknowledge without checking the record's current status, so a repeated
acknowledge on an already-TAKEN record (acknowledged at minute 100 with
two reminders recorded) rewrites `taken_at` to the new action time and
overwrites `retry_count` with the client-reported count. -/
theorem C1_counterexample :
    takenLog.status = Status.TAKEN ∧
    (ackStep none "U" takenLog 0 200).1.taken_at ≠ takenLog.taken_at ∧
    (ackStep none "U" takenLog 0 200).1.retry_count ≠ takenLog.retry_count := by
  decide

/-- Claim C3 is false on the code: a snooze action carrying a stale
client-reported count of 0 writes `retry_count = 1` over a stored count of
5, so `retry_count` decreases under a user action. -/
theorem C3_counterexample :
    (snoozeStep "U" retry5Log 0 100).1.retry_count < retry5Log.retry_count := by
  decide

/-- Claim C4 is false on the code: against the same stored record, two
snooze events that differ only in `reportedRetryCount` (0 versus 7) make
the handler write different counts (1 versus 8), so the event's count does
influence the values written to the store. -/
theorem C4_counterexample :
    (snoozeStep "U" retry5Log 0 100).1.retry_count = 1 ∧
    (snoozeStep "U" retry5Log 7 100).1.retry_count = 8 ∧
    (snoozeStep "U" retry5Log 0 100).1.retry_count ≠
      (snoozeStep "U" retry5Log 7 100).1.retry_count := by
  decide

/-- First-contact seeding run twice on the same day for the same user. -/
def dbSetupTwice : DB :=
  setupDefaultSchedules (setupDefaultSchedules db0 1 "2025-01-01") 1 "2025-01-01"

/-- Claim C5 is false on the code: `setupDefaultSchedules` (the
first-contact invocation of the daily initializer) never clears or reuses
existing schedules, so running it twice for the same day leaves two dose
records for the (user, lunch slot) pair instead of exactly one, and the
second run does change the store. -/
theorem C5_counterexample :
    countLogsForMeal dbSetupTwice 1 "午餐後" "2025-01-01" = 2 ∧
    dbSetupTwice ≠ setupDefaultSchedules db0 1 "2025-01-01" := by
  decide

/-- Claim C6 is false on the code: `sendReminderForMealType` performs no
prerequisite check (the source deliberately removed it), so the
second-dose slot's evaluation dispatches a reminder while the linked
first-dose record is still PENDING. -/
theorem C6_counterexample :
    firstDoseLogPending.status ≠ Status.TAKEN ∧
    secondDoseSched.linked_schedule_id = some firstDoseLogPending.schedule_id ∧
    countReminders (mealRemindStep secondDoseSched userU secondDoseLog 541).2 = 1 := by
  decide

/-- Claim C7 is false on the code: a PENDING record (a reminder-eligible
state) with one reminder recorded and 31 minutes elapsed since
`last_reminded_at` gets no dispatch from `checkRetryNeeded`, because its
retry branch requires status SNOOZED. -/
theorem C7_counterexample :
    pendingMidLog.status = Status.PENDING ∧
    pendingMidLog.retry_count < 3 ∧
    pendingMidLog.last_reminded_at = some 0 ∧
    retryStep (some lunchSched) "U" pendingMidLog 31 = (pendingMidLog, []) := by
  decide

/-- Claim C8 is false on the code: acknowledging a fresh record at minute
50 and then snoozing it at minute 60 leaves the record SNOOZED with
`taken_at = some 50`, so `taken_at` is non-null while the status is not
TAKEN (the snooze path never clears it). -/
theorem C8_counterexample :
    (runOps freshLog [Op.ack none "U" 0 50, Op.snooze "U" 0 60]).status = Status.SNOOZED ∧
    (runOps freshLog [Op.ack none "U" 0 50, Op.snooze "U" 0 60]).taken_at = some 50 := by
  decide

/-- Claim C9 is false on the code: for the final MISSED transition the
engine's effect trace is the store write first and the warning second
(update-then-send), the exact order the claim forbids. -/
theorem C9_counterexample :
    (mealRemindStep lunchSched userU snoozed3Log 900).2 =
      [Effect.persist snoozed3Log.id Status.MISSED
         { takenAt := none, retryCount := none, lastRemindedAt := some 900 },
       Effect.text userU.line_user_id exceededMsg] := by
  decide

/-! ### Amended claims: engine-side properties -/

/-- Claim C1 (amended): once a record is TAKEN or MISSED, no
trigger-engine evaluation — a `sendReminderForMealType` pass, a
`checkRetryNeeded` pass or a `checkAndSendReminders` pass — changes any of
its fields or emits any effect.  (The webhook acknowledge and snooze
actions are not covered: they do modify terminal records, as the
counterexample shows.) -/
theorem C1_terminal_absorption_engine
    (sched : Schedule) (user : User) (schedOpt : Option Schedule) (uid ct : String)
    (f : Option MedicationLog) (log : MedicationLog) (n1 n2 n3 : Nat)
    (h : log.status = Status.TAKEN ∨ log.status = Status.MISSED) :
    mealRemindStep sched user log n1 = (log, []) ∧
    retryStep schedOpt uid log n2 = (log, []) ∧
    timedStep sched uid log f ct n3 = (log, []) := by
  refine ⟨?_, ?_, ?_⟩
  · rcases h with h | h <;> simp [mealRemindStep, h]
  · rcases h with h | h <;> cases hl : log.last_reminded_at <;> simp [retryStep, hl, h]
  · rcases h with h | h <;> (unfold timedStep; split <;> simp [h])

theorem C1_terminal_absorption_engine_witness :
    mealRemindStep lunchSched userU takenLog 200 = (takenLog, []) ∧
    retryStep (some lunchSched) "U" takenLog 300 = (takenLog, []) ∧
    timedStep lunchSched "U" takenLog none "13:00" 400 = (takenLog, []) :=
  C1_terminal_absorption_engine lunchSched userU (some lunchSched) "U" "13:00" none takenLog
    200 300 400 (Or.inl (by decide))

/-- Claim C3 (amended): across trigger-engine evaluations a record's
retry_count never decreases.  (User actions are not covered: they write
the client-reported count and can decrease it, as the counterexample
shows.) -/
theorem C3_engine_retry_monotonic
    (sched : Schedule) (user : User) (schedOpt : Option Schedule) (uid ct : String)
    (f : Option MedicationLog) (log : MedicationLog) (n1 n2 n3 : Nat) :
    log.retry_count ≤ (mealRemindStep sched user log n1).1.retry_count ∧
    log.retry_count ≤ (retryStep schedOpt uid log n2).1.retry_count ∧
    log.retry_count ≤ (timedStep sched uid log f ct n3).1.retry_count := by
  refine ⟨?_, ?_, ?_⟩
  · simp only [mealRemindStep]
    split_ifs <;> simp [updateLog_retry_none, updateLog_retry_some, Nat.le_succ]
  · simp only [retryStep]
    cases log.last_reminded_at with
    | none => exact Nat.le_refl _
    | some t =>
      simp only []
      split_ifs
      · cases schedOpt with
        | none => exact Nat.le_refl _
        | some s => simp [updateLog_retry_some, Nat.le_succ]
      · simp [updateLog_retry_none]
      · exact Nat.le_refl _
  · simp only [timedStep]
    split_ifs <;> simp [updateLog_retry_none]

/-- Claim C4 (amended): the handler derives the written values from the
event's reportedRetryCount, not from the store — acknowledge writes
exactly the reported count, snooze writes the reported count plus one, and
the snooze outcome (SNOOZED versus MISSED) is decided by the reported
count alone; the stored record's own counter never enters the computation. -/
theorem C4_reported_count_governs
    (schedOpt : Option Schedule) (uid : String) (log : MedicationLog) (rc now : Nat) :
    (ackStep schedOpt uid log rc now).1.retry_count = rc ∧
    (snoozeStep uid log rc now).1.retry_count = rc + 1 ∧
    (snoozeStep uid log rc now).1.status =
      (if rc + 1 < 3 then Status.SNOOZED else Status.MISSED) := by
  refine ⟨?_, ?_, ?_⟩
  · cases schedOpt with
    | none => simp [ackStep, updateLog_retry_some]
    | some s =>
      simp only [ackStep]
      split <;> simp [updateLog_retry_some]
  · simp only [snoozeStep]
    split_ifs <;> simp [updateLog_retry_some]
  · simp only [snoozeStep]
    split_ifs with h <;> simp [updateLog_status, h]

/-- Claim C9 (amended): for the final MISSED transition the engine
persists MISSED first and only then sends the exceeded warning
(update-then-send); because the write precedes the send, the MISSED status
is persisted regardless of the send's outcome. -/
theorem C9_update_then_send
    (sched : Schedule) (user : User) (log : MedicationLog) (now : Nat)
    (h1 : log.status ≠ Status.TAKEN) (h2 : log.status ≠ Status.MISSED)
    (h3 : 3 ≤ log.retry_count) :
    (mealRemindStep sched user log now).2 =
      [Effect.persist log.id Status.MISSED
         { takenAt := none, retryCount := none, lastRemindedAt := some now },
       Effect.text user.line_user_id exceededMsg] ∧
    (mealRemindStep sched user log now).1.status = Status.MISSED := by
  unfold mealRemindStep
  simp [h1, h2, h3, updateLog_status]

theorem C9_update_then_send_witness :
    (mealRemindStep lunchSched userU snoozed3Log 901).2 =
      [Effect.persist snoozed3Log.id Status.MISSED
         { takenAt := none, retryCount := none, lastRemindedAt := some 901 },
       Effect.text userU.line_user_id exceededMsg] ∧
    (mealRemindStep lunchSched userU snoozed3Log 901).1.status = Status.MISSED :=
  C9_update_then_send lunchSched userU snoozed3Log 901 (by decide) (by decide) (by decide)

/-- Claim C6 (amended): `checkAndSendReminders` does gate on the
prerequisite — a second-dose slot with a linked schedule is a complete
no-op while the linked first-dose record is absent or not TAKEN.
(`sendReminderForMealType` has no such gate, as the counterexample
shows.) -/
theorem C6_timed_prerequisite_gate
    (sched : Schedule) (uid : String) (log : MedicationLog) (f : Option MedicationLog)
    (ct : String) (now : Nat)
    (h1 : sched.is_second_dose = true) (h2 : sched.linked_schedule_id.isSome = true)
    (h3 : ∀ fl, f = some fl → fl.status ≠ Status.TAKEN) :
    timedStep sched uid log f ct now = (log, []) := by
  cases f with
  | none =>
    simp only [timedStep]
    split_ifs <;> simp [h1, h2] at *
  | some fl =>
    have hfl : fl.status ≠ Status.TAKEN := h3 fl rfl
    simp only [timedStep]
    split_ifs <;> simp [h1, h2, bne_iff_ne, hfl] at *

theorem C6_timed_prerequisite_gate_witness :
    timedStep secondDoseSched "U" secondDoseLog (some firstDoseLogPending) "09:00" 541 =
      (secondDoseLog, []) :=
  C6_timed_prerequisite_gate secondDoseSched "U" secondDoseLog (some firstDoseLogPending)
    "09:00" 541 (by decide) (by decide) (fun fl h => by cases h; decide)

/-- A SNOOZED record with one reminder recorded, last reminded at minute 0. -/
def snoozed1Log : MedicationLog :=
  { freshLog with status := Status.SNOOZED, retry_count := 1, last_reminded_at := some 0 }

/-- `checkRetryNeeded` is a complete no-op on a record whose last reminder
is less than 30 minutes old. -/
theorem retryStep_noop_of_lt30 (schedOpt : Option Schedule) (uid : String)
    (log : MedicationLog) (now t : Nat) (hl : log.last_reminded_at = some t)
    (hlt : now - t < 30) : retryStep schedOpt uid log now = (log, []) := by
  simp only [retryStep, hl]
  have h1 : ¬(30 ≤ now - t ∧ log.retry_count < 3 ∧ log.status = Status.SNOOZED) := by
    rintro ⟨h30, -, -⟩; omega
  have h2 : ¬(90 ≤ now - t ∧ 3 ≤ log.retry_count ∧ log.status = Status.PENDING) := by
    rintro ⟨h90, -, -⟩; omega
  rw [if_neg h1, if_neg h2]

/-- `checkRetryNeeded` never dispatches a reminder for a record whose
status is not SNOOZED. -/
theorem retryStep_no_dispatch_of_not_snoozed (schedOpt : Option Schedule) (uid : String)
    (log : MedicationLog) (now : Nat) (h : log.status ≠ Status.SNOOZED) :
    countReminders (retryStep schedOpt uid log now).2 = 0 := by
  simp only [retryStep]
  cases log.last_reminded_at with
  | none => rfl
  | some t =>
    dsimp only
    split_ifs with hA hB
    · exact absurd hA.2.2 h
    · rfl
    · rfl

/-- The dispatching branch of `checkRetryNeeded` in closed form. -/
theorem retryStep_dispatches (s : Schedule) (uid : String) (log : MedicationLog) (now t : Nat)
    (hst : log.status = Status.SNOOZED) (hrc : log.retry_count < 3)
    (hl : log.last_reminded_at = some t) (h30 : 30 ≤ now - t) :
    retryStep (some s) uid log now =
      (updateLog log Status.PENDING
         { takenAt := none, retryCount := some (log.retry_count + 1), lastRemindedAt := some now },
       [Effect.persist log.id Status.PENDING
          { takenAt := none, retryCount := some (log.retry_count + 1), lastRemindedAt := some now },
        Effect.reminder uid s.id (log.retry_count + 1)]) := by
  simp only [retryStep, hl]
  rw [if_pos ⟨h30, hrc, hst⟩]

/-- A dispatching `checkRetryNeeded` evaluation can only have fired from a
SNOOZED record under the retry budget with the cooldown elapsed, and it
stamps `last_reminded_at` with the evaluation time. -/
theorem retryStep_dispatch_inv (schedOpt : Option Schedule) (uid : String)
    (log : MedicationLog) (now : Nat)
    (h : 1 ≤ countReminders (retryStep schedOpt uid log now).2) :
    ∃ t, log.last_reminded_at = some t ∧ 30 ≤ now - t ∧ log.retry_count < 3 ∧
      log.status = Status.SNOOZED ∧
      (retryStep schedOpt uid log now).1.last_reminded_at = some now := by
  revert h
  cases hl : log.last_reminded_at with
  | none =>
    simp only [retryStep, hl]
    intro h
    simp [countReminders] at h
  | some t =>
    simp only [retryStep, hl]
    split_ifs with hA hB
    · cases schedOpt with
      | none =>
        intro h
        simp [countReminders] at h
      | some s =>
        intro h
        exact ⟨t, rfl, hA.1, hA.2.1, hA.2.2, updateLog_last_some _ _ _ _ _⟩
    · intro h
      simp [countReminders, List.countP_cons, List.countP_nil] at h
    · intro h
      simp [countReminders] at h

/-- Claim C7 (amended): within `checkRetryNeeded`, (1) an evaluation less
than 30 minutes after `last_reminded_at` dispatches nothing; (2) a record
whose status is not SNOOZED — including PENDING records, which are
reminder-eligible in the spec's sense — is never dispatched a reminder;
(3) a SNOOZED record with retry_count < 3 evaluated at least 30 minutes
after the last reminder gets exactly one dispatch; and (4) after a
dispatching evaluation, a second evaluation 10 minutes later dispatches
nothing for that record. -/
theorem C7_retry_cooldown (s : Schedule) (uid : String) :
    (∀ (log : MedicationLog) (now t : Nat), log.last_reminded_at = some t → now - t < 30 →
      countReminders (retryStep (some s) uid log now).2 = 0) ∧
    (∀ (log : MedicationLog) (now : Nat), log.status ≠ Status.SNOOZED →
      countReminders (retryStep (some s) uid log now).2 = 0) ∧
    (∀ (log : MedicationLog) (now t : Nat), log.status = Status.SNOOZED →
      log.retry_count < 3 → log.last_reminded_at = some t → 30 ≤ now - t →
      countReminders (retryStep (some s) uid log now).2 = 1) ∧
    (∀ (log : MedicationLog) (now : Nat),
      1 ≤ countReminders (retryStep (some s) uid log now).2 →
      countReminders (retryStep (some s) uid ((retryStep (some s) uid log now).1) (now + 10)).2
        = 0) := by
  refine ⟨?_, ?_, ?_, ?_⟩
  · intro log now t hl hlt
    rw [retryStep_noop_of_lt30 (some s) uid log now t hl hlt]
    rfl
  · exact fun log now h => retryStep_no_dispatch_of_not_snoozed (some s) uid log now h
  · intro log now t hst hrc hl h30
    rw [retryStep_dispatches s uid log now t hst hrc hl h30]
    rfl
  · intro log now h
    obtain ⟨t, hl, h30, hrc, hsn, hlast⟩ := retryStep_dispatch_inv (some s) uid log now h
    rw [retryStep_noop_of_lt30 (some s) uid _ (now + 10) now hlast (by omega)]
    rfl

theorem C7_retry_cooldown_witness :
    countReminders (retryStep (some lunchSched) "U" snoozed1Log 10).2 = 0 ∧
    countReminders (retryStep (some lunchSched) "U" takenLog 500).2 = 0 ∧
    countReminders (retryStep (some lunchSched) "U" snoozed1Log 31).2 = 1 ∧
    countReminders (retryStep (some lunchSched) "U"
      ((retryStep (some lunchSched) "U" snoozed1Log 31).1) 41).2 = 0 :=
  ⟨(C7_retry_cooldown lunchSched "U").1 snoozed1Log 10 0 rfl (by decide),
   (C7_retry_cooldown lunchSched "U").2.1 takenLog 500 (by decide),
   (C7_retry_cooldown lunchSched "U").2.2.1 snoozed1Log 31 0 rfl (by decide) rfl (by decide),
   (C7_retry_cooldown lunchSched "U").2.2.2 snoozed1Log 31 (by decide)⟩

/-- Every single operation — engine evaluation or user action — preserves
the invariant that a TAKEN record has a non-null `taken_at`. -/
theorem applyOp_taken_inv (log : MedicationLog) (op : Op)
    (h : log.status = Status.TAKEN → log.taken_at.isSome = true) :
    (applyOp log op).status = Status.TAKEN → (applyOp log op).taken_at.isSome = true := by
  cases op with
  | mealTick s u n =>
    simp only [applyOp, mealRemindStep]
    split_ifs <;>
      first
        | exact h
        | (intro hT; rw [updateLog_status] at hT; exact absurd hT (by decide))
  | retryTick s uid n =>
    simp only [applyOp, retryStep]
    cases log.last_reminded_at with
    | none => exact h
    | some t =>
      dsimp only
      split_ifs with hA hB
      · cases s with
        | none => exact h
        | some sc =>
          intro hT; rw [updateLog_status] at hT; exact absurd hT (by decide)
      · intro hT; rw [updateLog_status] at hT; exact absurd hT (by decide)
      · exact h
  | timedTick s uid f ct n =>
    simp only [applyOp, timedStep]
    split_ifs with h1 h2 h3
    · exact h
    · intro hT
      rw [updateLog_status] at hT
      rw [updateLog_taken_at_of_none]
      exact h hT
    · exact h
    · exact h
  | ack s uid rc n =>
    cases s with
    | none =>
      simp only [applyOp, ackStep]
      intro hT
      rw [updateLog_taken_at_taken]
      rfl
    | some sc =>
      simp only [applyOp, ackStep]
      split_ifs <;> (intro hT; rw [updateLog_taken_at_taken]; rfl)
  | snooze uid rc n =>
    simp only [applyOp, snoozeStep]
    split_ifs <;> (intro hT; rw [updateLog_status] at hT; exact absurd hT (by decide))

/-- No operation other than an acknowledge ever writes `taken_at`: engine
evaluations and snoozes all pass an absent `takenAt` field to the store
update, which then leaves the column untouched. -/
theorem applyOp_taken_at_of_not_ack (log : MedicationLog) (op : Op) (h : op.isAck = false) :
    (applyOp log op).taken_at = log.taken_at := by
  cases op with
  | mealTick s u n =>
    simp only [applyOp, mealRemindStep]
    split_ifs <;> rfl
  | retryTick s uid n =>
    simp only [applyOp, retryStep]
    cases log.last_reminded_at with
    | none => rfl
    | some t =>
      dsimp only
      split_ifs
      · cases s with
        | none => rfl
        | some sc => rw [updateLog_taken_at_of_none]
      · rw [updateLog_taken_at_of_none]
      · rfl
  | timedTick s uid f ct n =>
    simp only [applyOp, timedStep]
    split_ifs <;> first | rfl | rw [updateLog_taken_at_of_none]
  | ack s uid rc n => simp [Op.isAck] at h
  | snooze uid rc n =>
    simp only [applyOp, snoozeStep]
    split_ifs
    · rw [updateLog_taken_at_of_none]
    · rw [updateLog_taken_at_of_none, updateLog_taken_at_of_none]

/-- Claim C8 (amended): at every state reachable by engine evaluations and
user actions from a record satisfying the invariant (in particular from
any freshly created record, which is PENDING with a null `taken_at`),
status = TAKEN implies `taken_at` is non-null; and `taken_at` is written
only by acknowledge transitions — every non-acknowledge operation leaves
it unchanged.  The converse direction of the claim is false (see the
counterexample): a snooze after an acknowledge leaves `taken_at` non-null
on a non-TAKEN record, and a repeated acknowledge rewrites `taken_at`. -/
theorem C8_taken_at_invariant (ops : List Op) (log0 : MedicationLog)
    (h0 : log0.status = Status.TAKEN → log0.taken_at.isSome = true) :
    ((runOps log0 ops).status = Status.TAKEN → (runOps log0 ops).taken_at.isSome = true) ∧
    (∀ (log : MedicationLog) (op : Op), op.isAck = false →
      (applyOp log op).taken_at = log.taken_at) := by
  constructor
  · induction ops generalizing log0 with
    | nil => exact h0
    | cons op rest ih =>
      simp only [runOps, List.foldl_cons] at *
      exact ih (applyOp log0 op) (applyOp_taken_inv log0 op h0)
  · exact applyOp_taken_at_of_not_ack

theorem C8_taken_at_invariant_witness :
    (runOps freshLog [Op.ack none "U" 0 50]).taken_at.isSome = true ∧
    (applyOp snoozed1Log (Op.snooze "U" 0 60)).taken_at = snoozed1Log.taken_at :=
  have h := C8_taken_at_invariant [Op.ack none "U" 0 50] freshLog (by decide)
  ⟨h.1 (by decide), h.2 snoozed1Log (Op.snooze "U" 0 60) (by decide)⟩

/-! ### The retry ceiling of `sendReminderForMealType` -/

theorem mealIterate_succ (sched : Schedule) (user : User) (times : Nat → Nat) (n : Nat)
    (log : MedicationLog) :
    mealIterate sched user times (n + 1) log =
      ((mealRemindStep sched user (mealIterate sched user times n log).1 (times n)).1,
       (mealIterate sched user times n log).2 ++
         (mealRemindStep sched user (mealIterate sched user times n log).1 (times n)).2) := rfl

/-- The dispatching branch of `sendReminderForMealType` in closed form. -/
theorem mealRemindStep_dispatch (sched : Schedule) (user : User) (log : MedicationLog) (now : Nat)
    (hst : log.status = Status.PENDING ∨ log.status = Status.SNOOZED)
    (hrc : log.retry_count < 3) :
    mealRemindStep sched user log now =
      (updateLog log Status.SNOOZED
         { takenAt := none, retryCount := some (log.retry_count + 1), lastRemindedAt := some now },
       [Effect.reminder user.line_user_id sched.id log.retry_count,
        Effect.persist log.id Status.SNOOZED
          { takenAt := none, retryCount := some (log.retry_count + 1),
            lastRemindedAt := some now }]) := by
  have hn : ¬3 ≤ log.retry_count := Nat.not_le.mpr hrc
  rcases hst with h | h <;> simp [mealRemindStep, h, hn]

/-- The exceeded branch of `sendReminderForMealType` in closed form. -/
theorem mealRemindStep_exceed (sched : Schedule) (user : User) (log : MedicationLog) (now : Nat)
    (hst : log.status = Status.PENDING ∨ log.status = Status.SNOOZED)
    (hrc : 3 ≤ log.retry_count) :
    mealRemindStep sched user log now =
      (updateLog log Status.MISSED
         { takenAt := none, retryCount := none, lastRemindedAt := some now },
       [Effect.persist log.id Status.MISSED
          { takenAt := none, retryCount := none, lastRemindedAt := some now },
        Effect.text user.line_user_id exceededMsg]) := by
  rcases hst with h | h <;> simp [mealRemindStep, h, hrc]

/-- `sendReminderForMealType` skips an already-MISSED record. -/
theorem mealRemindStep_missed (sched : Schedule) (user : User) (log : MedicationLog) (now : Nat)
    (h : log.status = Status.MISSED) : mealRemindStep sched user log now = (log, []) := by
  simp [mealRemindStep, h]

theorem countReminders_nil : countReminders [] = 0 := rfl

theorem countExceeded_nil : countExceeded [] = 0 := rfl

theorem countReminders_append (a b : List Effect) :
    countReminders (a ++ b) = countReminders a + countReminders b := by
  simp [countReminders, List.countP_append]

theorem countExceeded_append (a b : List Effect) :
    countExceeded (a ++ b) = countExceeded a + countExceeded b := by
  simp [countExceeded, List.countP_append]

theorem countReminders_dispatch_trace (a : String) (b c : Nat) (i : Nat) (st : Status)
    (d : UpdateData) :
    countReminders [Effect.reminder a b c, Effect.persist i st d] = 1 := rfl

theorem countExceeded_dispatch_trace (a : String) (b c : Nat) (i : Nat) (st : Status)
    (d : UpdateData) :
    countExceeded [Effect.reminder a b c, Effect.persist i st d] = 0 := rfl

theorem countReminders_exceed_trace (i : Nat) (st : Status) (d : UpdateData) (a : String) :
    countReminders [Effect.persist i st d, Effect.text a exceededMsg] = 0 := rfl

theorem countExceeded_exceed_trace (i : Nat) (st : Status) (d : UpdateData) (a : String) :
    countExceeded [Effect.persist i st d, Effect.text a exceededMsg] = 1 := by
  simp [countExceeded, List.countP_cons, List.countP_nil]

/-- Full characterization of iterating `sendReminderForMealType` on a
fresh record: evaluation k (for k = 1, 2, 3) dispatches the k-th reminder
and leaves the record SNOOZED with retry_count k; evaluation 4 transitions
to MISSED and emits the single exceeded notice; later evaluations change
nothing. -/
theorem mealIterate_state (sched : Schedule) (user : User) (times : Nat → Nat)
    (log : MedicationLog) (h1 : log.status = Status.PENDING) (h2 : log.retry_count = 0) :
    ∀ n : Nat,
      (mealIterate sched user times n log).1.status =
        (if n = 0 then Status.PENDING else if n ≤ 3 then Status.SNOOZED else Status.MISSED) ∧
      (mealIterate sched user times n log).1.retry_count = min n 3 ∧
      countReminders (mealIterate sched user times n log).2 = min n 3 ∧
      countExceeded (mealIterate sched user times n log).2 = (if 4 ≤ n then 1 else 0) := by
  intro n
  induction n with
  | zero =>
    refine ⟨?_, ?_, ?_, ?_⟩ <;>
      simp [mealIterate, countReminders_nil, countExceeded_nil, h1, h2]
  | succ m ih =>
    obtain ⟨ihs, ihr, ihc, ihe⟩ := ih
    rw [mealIterate_succ]
    rcases Nat.lt_or_ge m 3 with hm | hm
    · have hstat : (mealIterate sched user times m log).1.status = Status.PENDING ∨
          (mealIterate sched user times m log).1.status = Status.SNOOZED := by
        rcases Nat.eq_zero_or_pos m with h0 | h0
        · left; rw [ihs, if_pos h0]
        · right; rw [ihs, if_neg (by omega), if_pos (by omega)]
      have hrc : (mealIterate sched user times m log).1.retry_count < 3 := by
        rw [ihr]; omega
      rw [mealRemindStep_dispatch sched user _ (times m) hstat hrc]
      refine ⟨?_, ?_, ?_, ?_⟩
      · rw [updateLog_status, if_neg (by omega : ¬(m + 1 = 0)),
          if_pos (by omega : m + 1 ≤ 3)]
      · rw [updateLog_retry_some, ihr]; omega
      · rw [countReminders_append, ihc, countReminders_dispatch_trace]; omega
      · rw [countExceeded_append, ihe, countExceeded_dispatch_trace,
          if_neg (by omega : ¬(4 ≤ m)), if_neg (by omega : ¬(4 ≤ m + 1))]
    · rcases Nat.eq_or_lt_of_le hm with hm3 | hm4
      · have hms : (mealIterate sched user times m log).1.status = Status.SNOOZED := by
          rw [ihs, if_neg (by omega), if_pos (by omega)]
        have hrc : 3 ≤ (mealIterate sched user times m log).1.retry_count := by
          rw [ihr]; omega
        rw [mealRemindStep_exceed sched user _ (times m) (Or.inr hms) hrc]
        refine ⟨?_, ?_, ?_, ?_⟩
        · rw [updateLog_status, if_neg (by omega : ¬(m + 1 = 0)),
            if_neg (by omega : ¬(m + 1 ≤ 3))]
        · rw [updateLog_retry_none, ihr]; omega
        · rw [countReminders_append, ihc, countReminders_exceed_trace]; omega
        · rw [countExceeded_append, ihe, countExceeded_exceed_trace,
            if_neg (by omega : ¬(4 ≤ m)), if_pos (by omega : 4 ≤ m + 1)]
      · have hms : (mealIterate sched user times m log).1.status = Status.MISSED := by
          rw [ihs, if_neg (by omega), if_neg (by omega)]
        rw [mealRemindStep_missed sched user _ (times m) hms]
        refine ⟨?_, ?_, ?_, ?_⟩
        · rw [if_neg (by omega : ¬(m + 1 = 0)), if_neg (by omega : ¬(m + 1 ≤ 3))]
          exact hms
        · rw [ihr]; omega
        · rw [countReminders_append, countReminders_nil, ihc]; omega
        · rw [countExceeded_append, countExceeded_nil, ihe,
            if_pos (by omega : 4 ≤ m), if_pos (by omega : 4 ≤ m + 1)]

/-- Claim C2: under the cron-per-slot engine (`sendReminderForMealType`),
a record starting with retry_count 0 that is never acknowledged receives
exactly 3 reminder dispatches; the 4th evaluation transitions it to MISSED
and sends exactly one exceeded notice; and every later evaluation leaves
the record MISSED with the dispatch and notice totals unchanged (the
engine checks the current status is not MISSED before acting). -/
theorem C2_retry_ceiling (sched : Schedule) (user : User) (times : Nat → Nat)
    (log : MedicationLog) (h1 : log.status = Status.PENDING) (h2 : log.retry_count = 0) :
    countReminders (mealIterate sched user times 3 log).2 = 3 ∧
    (mealIterate sched user times 4 log).1.status = Status.MISSED ∧
    countExceeded (mealIterate sched user times 4 log).2 = 1 ∧
    (∀ n, 4 ≤ n →
      (mealIterate sched user times n log).1.status = Status.MISSED ∧
      countReminders (mealIterate sched user times n log).2 = 3 ∧
      countExceeded (mealIterate sched user times n log).2 = 1) := by
  refine ⟨?_, ?_, ?_, ?_⟩
  · simpa using (mealIterate_state sched user times log h1 h2 3).2.2.1
  · simpa using (mealIterate_state sched user times log h1 h2 4).1
  · simpa using (mealIterate_state sched user times log h1 h2 4).2.2.2
  · intro n hn
    obtain ⟨hs, hr, hc, he⟩ := mealIterate_state sched user times log h1 h2 n
    refine ⟨?_, ?_, ?_⟩
    · rw [hs, if_neg (by omega), if_neg (by omega)]
    · rw [hc]; omega
    · rw [he, if_pos hn]

theorem C2_retry_ceiling_witness :
    countReminders (mealIterate lunchSched userU (fun k => k) 3 freshLog).2 = 3 ∧
    (mealIterate lunchSched userU (fun k => k) 4 freshLog).1.status = Status.MISSED ∧
    countExceeded (mealIterate lunchSched userU (fun k => k) 4 freshLog).2 = 1 ∧
    (mealIterate lunchSched userU (fun k => k) 6 freshLog).1.status = Status.MISSED :=
  have h := C2_retry_ceiling lunchSched userU (fun k => k) freshLog (by decide) (by decide)
  ⟨h.1, h.2.1, h.2.2.1, (h.2.2.2 6 (by decide)).1⟩

/-! ### Scoping of `updateMedicationLogStatus` -/

theorem update_absent (store : List MedicationLog) (logId : Nat) (st : Status) (d : UpdateData)
    (h : ∀ l ∈ store, l.id ≠ logId) :
    updateMedicationLogStatus store logId st d = (none, store) := by
  induction store with
  | nil => rfl
  | cons l ls ih =>
    have hne : l.id ≠ logId := h l (List.mem_cons_self l ls)
    simp only [updateMedicationLogStatus, if_neg hne]
    rw [ih (fun x hx => h x (List.mem_cons_of_mem l hx))]

theorem update_found_isSome (store : List MedicationLog) (logId : Nat) (st : Status)
    (d : UpdateData) (h : ∃ l ∈ store, l.id = logId) :
    (updateMedicationLogStatus store logId st d).1.isSome = true := by
  induction store with
  | nil =>
    obtain ⟨l, hl, _⟩ := h
    exact absurd hl (List.not_mem_nil l)
  | cons a ls ih =>
    by_cases ha : a.id = logId
    · simp only [updateMedicationLogStatus, if_pos ha]
      rfl
    · obtain ⟨l, hl, hid⟩ := h
      rcases List.mem_cons.mp hl with rfl | hmem
      · exact absurd hid ha
      · simp only [updateMedicationLogStatus, if_neg ha]
        exact ih ⟨l, hmem, hid⟩

theorem update_other_unchanged (store : List MedicationLog) (logId : Nat) (st : Status)
    (d : UpdateData) :
    ∀ i : Nat, (∀ l, store[i]? = some l → l.id ≠ logId) →
      (updateMedicationLogStatus store logId st d).2[i]? = store[i]? := by
  induction store with
  | nil => intro i h; rfl
  | cons a ls ih =>
    intro i h
    by_cases ha : a.id = logId
    · simp only [updateMedicationLogStatus, if_pos ha]
      cases i with
      | zero => exact absurd ha (h a (by simp))
      | succ j => simp [List.getElem?_cons_succ]
    · simp only [updateMedicationLogStatus, if_neg ha]
      cases i with
      | zero => simp
      | succ j =>
        simp only [List.getElem?_cons_succ]
        exact ih j (fun l hl => h l (by simpa [List.getElem?_cons_succ] using hl))

/-- Claim C10: for an absent log id, `updateMedicationLogStatus` returns
null and leaves every stored record unchanged; for a present id it returns
the updated record, and every position holding a record with a different
id is left exactly as it was. -/
theorem C10_update_scoping (store : List MedicationLog) (logId : Nat) (st : Status)
    (d : UpdateData) :
    ((∀ l ∈ store, l.id ≠ logId) →
      updateMedicationLogStatus store logId st d = (none, store)) ∧
    ((∃ l ∈ store, l.id = logId) →
      (updateMedicationLogStatus store logId st d).1.isSome = true) ∧
    (∀ i : Nat, (∀ l, store[i]? = some l → l.id ≠ logId) →
      (updateMedicationLogStatus store logId st d).2[i]? = store[i]?) :=
  ⟨update_absent store logId st d, update_found_isSome store logId st d,
   update_other_unchanged store logId st d⟩

/-- A second stored log with a different id. -/
def otherLog : MedicationLog := { freshLog with id := 11, schedule_id := 5 }

/-- A two-record store. -/
def storeW : List MedicationLog := [freshLog, otherLog]

/-- An acknowledge-shaped update payload. -/
def updW : UpdateData := { takenAt := some 100, retryCount := some 1, lastRemindedAt := none }

/-! ### Idempotence of `initDailySchedule` -/

theorem find?_append_of_some {α : Type} (p : α → Bool) {l1 : List α} (l2 : List α) {x : α}
    (h : l1.find? p = some x) : (l1 ++ l2).find? p = some x := by
  induction l1 with
  | nil => simp [List.find?] at h
  | cons a t ih =>
    by_cases hp : p a
    · rw [List.find?_cons_of_pos _ hp] at h
      rw [List.cons_append, List.find?_cons_of_pos _ hp]
      exact h
    · rw [List.find?_cons_of_neg _ hp] at h
      rw [List.cons_append, List.find?_cons_of_neg _ hp]
      exact ih h

theorem find?_append_of_none {α : Type} (p : α → Bool) {l1 : List α} (l2 : List α)
    (h : l1.find? p = none) : (l1 ++ l2).find? p = l2.find? p := by
  induction l1 with
  | nil => rfl
  | cons a t ih =>
    by_cases hp : p a
    · rw [List.find?_cons_of_pos _ hp] at h
      exact absurd h (by simp)
    · rw [List.find?_cons_of_neg _ hp] at h
      rw [List.cons_append, List.find?_cons_of_neg _ hp]
      exact ih h

theorem countP_eq_zero_of_find?_none {α : Type} (p : α → Bool) {l : List α}
    (h : l.find? p = none) : l.countP p = 0 := by
  rw [List.countP_eq_zero]
  exact List.find?_eq_none.mp h

theorem countP_pos_of_find?_some {α : Type} (p : α → Bool) {l : List α} {x : α}
    (h : l.find? p = some x) : 1 ≤ l.countP p :=
  List.countP_pos_iff.mpr ⟨x, List.mem_of_find?_eq_some h, List.find?_some h⟩

theorem countP_singleton_le_one {α : Type} (p : α → Bool) (x : α) :
    List.countP p [x] ≤ 1 := by
  by_cases hp : p x <;> simp [List.countP_cons, List.countP_nil, hp]

theorem countP_append_singleton_le {α : Type} (p : α → Bool) (l : List α) (x : α)
    (h : l.countP p ≤ 1) (hx : p x = true → l.countP p = 0) :
    (l ++ [x]).countP p ≤ 1 := by
  rw [List.countP_append]
  by_cases hp : p x
  · rw [hx hp]
    simpa using countP_singleton_le_one p x
  · have h0 : List.countP p [x] = 0 := by
      rw [List.countP_cons, List.countP_nil, if_neg hp]
    omega

theorem createMedicationLog_users (db : DB) (sid uid : Nat) (d : String) :
    (createMedicationLog db sid uid d).users = db.users := by
  unfold createMedicationLog
  split <;> rfl

theorem createMedicationLog_schedules (db : DB) (sid uid : Nat) (d : String) :
    (createMedicationLog db sid uid d).schedules = db.schedules := by
  unfold createMedicationLog
  split <;> rfl

theorem createMedicationLog_key_mono (db : DB) (sid' uid : Nat) (d' : String) (sid : Nat)
    (d : String) (h : logKeyExists db sid d = true) :
    logKeyExists (createMedicationLog db sid' uid d') sid d = true := by
  unfold logKeyExists getMedicationLogByScheduleAndDate at h ⊢
  unfold createMedicationLog
  split
  · exact h
  · dsimp only
    obtain ⟨x, hx⟩ := Option.isSome_iff_exists.mp h
    rw [find?_append_of_some _ _ hx]
    rfl

theorem createMedicationLog_key_exists (db : DB) (sid uid : Nat) (d : String) :
    logKeyExists (createMedicationLog db sid uid d) sid d = true := by
  unfold logKeyExists getMedicationLogByScheduleAndDate createMedicationLog
  split
  · next x heq => rw [heq]; rfl
  · next heq =>
    dsimp only
    rw [find?_append_of_none _ _ heq, List.find?_cons_of_pos _ (by simp [logKeyP])]
    rfl

theorem createMedicationLog_le_one (db : DB) (sid' uid : Nat) (d' : String) (sid : Nat)
    (d : String) (h : countKey db sid d ≤ 1) :
    countKey (createMedicationLog db sid' uid d') sid d ≤ 1 := by
  unfold countKey at h ⊢
  unfold createMedicationLog
  split
  · exact h
  · next heq =>
    dsimp only
    apply countP_append_singleton_le _ _ _ h
    intro hp
    simp only [logKeyP, Bool.and_eq_true, beq_iff_eq] at hp
    obtain ⟨h1, h2⟩ := hp
    subst h1; subst h2
    exact countP_eq_zero_of_find?_none _ heq

theorem initLogStep_users (uid : Nat) (today : String) (db : DB) (s : Schedule) :
    (initLogStep uid today db s).users = db.users := by
  unfold initLogStep
  split
  · rfl
  · exact createMedicationLog_users db s.id uid today

theorem initLogStep_schedules (uid : Nat) (today : String) (db : DB) (s : Schedule) :
    (initLogStep uid today db s).schedules = db.schedules := by
  unfold initLogStep
  split
  · rfl
  · exact createMedicationLog_schedules db s.id uid today

theorem initLogStep_key_mono (uid : Nat) (today : String) (db : DB) (s : Schedule)
    (sid : Nat) (d : String) (h : logKeyExists db sid d = true) :
    logKeyExists (initLogStep uid today db s) sid d = true := by
  unfold initLogStep
  split
  · exact h
  · exact createMedicationLog_key_mono db s.id uid today sid d h

theorem initLogStep_self (uid : Nat) (today : String) (db : DB) (s : Schedule) :
    logKeyExists (initLogStep uid today db s) s.id today = true := by
  unfold initLogStep
  split
  · next x heq => unfold logKeyExists; rw [heq]; rfl
  · exact createMedicationLog_key_exists db s.id uid today

theorem initLogStep_le_one (uid : Nat) (today : String) (db : DB) (s : Schedule)
    (sid : Nat) (d : String) (h : countKey db sid d ≤ 1) :
    countKey (initLogStep uid today db s) sid d ≤ 1 := by
  unfold initLogStep
  split
  · exact h
  · exact createMedicationLog_le_one db s.id uid today sid d h

theorem initLogStep_noop (uid : Nat) (today : String) (db : DB) (s : Schedule)
    (h : logKeyExists db s.id today = true) : initLogStep uid today db s = db := by
  unfold initLogStep
  obtain ⟨x, hx⟩ := Option.isSome_iff_exists.mp h
  rw [hx]

theorem initUserSchedules_users (db : DB) (uid : Nat) (scheds : List Schedule) (today : String) :
    (initUserSchedules db uid scheds today).users = db.users := by
  unfold initUserSchedules
  induction scheds generalizing db with
  | nil => rfl
  | cons s t ih => rw [List.foldl_cons, ih, initLogStep_users]

theorem initUserSchedules_schedules (db : DB) (uid : Nat) (scheds : List Schedule)
    (today : String) : (initUserSchedules db uid scheds today).schedules = db.schedules := by
  unfold initUserSchedules
  induction scheds generalizing db with
  | nil => rfl
  | cons s t ih => rw [List.foldl_cons, ih, initLogStep_schedules]

theorem initUserSchedules_key_mono (db : DB) (uid : Nat) (scheds : List Schedule)
    (today : String) (sid : Nat) (d : String) (h : logKeyExists db sid d = true) :
    logKeyExists (initUserSchedules db uid scheds today) sid d = true := by
  unfold initUserSchedules
  induction scheds generalizing db with
  | nil => exact h
  | cons s t ih =>
    rw [List.foldl_cons]
    exact ih (initLogStep uid today db s) (initLogStep_key_mono uid today db s sid d h)

theorem initUserSchedules_le_one (db : DB) (uid : Nat) (scheds : List Schedule)
    (today : String) (sid : Nat) (d : String) (h : countKey db sid d ≤ 1) :
    countKey (initUserSchedules db uid scheds today) sid d ≤ 1 := by
  unfold initUserSchedules
  induction scheds generalizing db with
  | nil => exact h
  | cons s t ih =>
    rw [List.foldl_cons]
    exact ih (initLogStep uid today db s) (initLogStep_le_one uid today db s sid d h)

theorem initUserSchedules_covers (db : DB) (uid : Nat) (scheds : List Schedule)
    (today : String) :
    ∀ s ∈ scheds, logKeyExists (initUserSchedules db uid scheds today) s.id today = true := by
  induction scheds generalizing db with
  | nil => intro s hs; exact absurd hs (List.not_mem_nil s)
  | cons a t ih =>
    intro s hs
    show logKeyExists (List.foldl (initLogStep uid today) (initLogStep uid today db a) t)
      s.id today = true
    rcases List.mem_cons.mp hs with rfl | hmem
    · exact initUserSchedules_key_mono (initLogStep uid today db s) uid t today s.id today
        (initLogStep_self uid today db s)
    · exact ih (initLogStep uid today db a) s hmem

theorem initUserSchedules_noop (db : DB) (uid : Nat) (scheds : List Schedule) (today : String)
    (h : ∀ s ∈ scheds, logKeyExists db s.id today = true) :
    initUserSchedules db uid scheds today = db := by
  unfold initUserSchedules
  induction scheds generalizing db with
  | nil => rfl
  | cons a t ih =>
    rw [List.foldl_cons, initLogStep_noop uid today db a (h a (List.mem_cons_self a t))]
    exact ih db (fun s hs => h s (List.mem_cons_of_mem a hs))

theorem getSchedulesByUserId_congr (db1 db2 : DB) (uid : Nat)
    (h : db1.schedules = db2.schedules) :
    getSchedulesByUserId db1 uid = getSchedulesByUserId db2 uid := by
  unfold getSchedulesByUserId
  rw [h]

theorem initUserStep_users (today : String) (db : DB) (u : User) :
    (initUserStep today db u).users = db.users :=
  initUserSchedules_users db u.id (getSchedulesByUserId db u.id) today

theorem initUserStep_schedules (today : String) (db : DB) (u : User) :
    (initUserStep today db u).schedules = db.schedules :=
  initUserSchedules_schedules db u.id (getSchedulesByUserId db u.id) today

theorem initUserStep_key_mono (today : String) (db : DB) (u : User) (sid : Nat) (d : String)
    (h : logKeyExists db sid d = true) :
    logKeyExists (initUserStep today db u) sid d = true :=
  initUserSchedules_key_mono db u.id (getSchedulesByUserId db u.id) today sid d h

theorem initUserStep_le_one (today : String) (db : DB) (u : User) (sid : Nat) (d : String)
    (h : countKey db sid d ≤ 1) : countKey (initUserStep today db u) sid d ≤ 1 :=
  initUserSchedules_le_one db u.id (getSchedulesByUserId db u.id) today sid d h

theorem foldl_initUserStep_users (us : List User) (db : DB) (today : String) :
    (us.foldl (initUserStep today) db).users = db.users := by
  induction us generalizing db with
  | nil => rfl
  | cons v vs ih => rw [List.foldl_cons, ih, initUserStep_users]

theorem foldl_initUserStep_schedules (us : List User) (db : DB) (today : String) :
    (us.foldl (initUserStep today) db).schedules = db.schedules := by
  induction us generalizing db with
  | nil => rfl
  | cons v vs ih => rw [List.foldl_cons, ih, initUserStep_schedules]

theorem foldl_initUserStep_key_mono (us : List User) (db : DB) (today : String) (sid : Nat)
    (d : String) (h : logKeyExists db sid d = true) :
    logKeyExists (us.foldl (initUserStep today) db) sid d = true := by
  induction us generalizing db with
  | nil => exact h
  | cons v vs ih =>
    rw [List.foldl_cons]
    exact ih (initUserStep today db v) (initUserStep_key_mono today db v sid d h)

theorem foldl_initUserStep_le_one (us : List User) (db : DB) (today : String) (sid : Nat)
    (d : String) (h : countKey db sid d ≤ 1) :
    countKey (us.foldl (initUserStep today) db) sid d ≤ 1 := by
  induction us generalizing db with
  | nil => exact h
  | cons v vs ih =>
    rw [List.foldl_cons]
    exact ih (initUserStep today db v) (initUserStep_le_one today db v sid d h)

theorem foldl_initUserStep_covers (us : List User) (db : DB) (today : String) :
    ∀ u ∈ us, ∀ s ∈ getSchedulesByUserId db u.id,
      logKeyExists (us.foldl (initUserStep today) db) s.id today = true := by
  induction us generalizing db with
  | nil => intro u hu; exact absurd hu (List.not_mem_nil u)
  | cons v vs ih =>
    intro u hu s hs
    rw [List.foldl_cons]
    rcases List.mem_cons.mp hu with rfl | hmem
    · exact foldl_initUserStep_key_mono vs (initUserStep today db u) today s.id today
        (initUserSchedules_covers db u.id (getSchedulesByUserId db u.id) today s hs)
    · refine ih (initUserStep today db v) u hmem s ?_
      rw [getSchedulesByUserId_congr (initUserStep today db v) db u.id
        (initUserStep_schedules today db v)]
      exact hs

theorem foldl_initUserStep_noop (us : List User) (db : DB) (today : String)
    (h : ∀ u ∈ us, ∀ s ∈ getSchedulesByUserId db u.id, logKeyExists db s.id today = true) :
    us.foldl (initUserStep today) db = db := by
  induction us generalizing db with
  | nil => rfl
  | cons v vs ih =>
    rw [List.foldl_cons]
    have hv : initUserStep today db v = db :=
      initUserSchedules_noop db v.id (getSchedulesByUserId db v.id) today
        (fun s hs => h v (List.mem_cons_self v vs) s hs)
    rw [hv]
    exact ih db (fun u hu s hs => h u (List.mem_cons_of_mem v hu) s hs)

theorem initDailySchedule_users (db : DB) (today : String) :
    (initDailySchedule db today).users = db.users :=
  foldl_initUserStep_users db.users db today

theorem initDailySchedule_schedules (db : DB) (today : String) :
    (initDailySchedule db today).schedules = db.schedules :=
  foldl_initUserStep_schedules db.users db today

theorem initDailySchedule_covers (db : DB) (today : String) :
    ∀ u ∈ db.users, ∀ s ∈ getSchedulesByUserId db u.id,
      logKeyExists (initDailySchedule db today) s.id today = true :=
  foldl_initUserStep_covers db.users db today

theorem initDailySchedule_le_one (db : DB) (today : String) (sid : Nat) (d : String)
    (h : countKey db sid d ≤ 1) : countKey (initDailySchedule db today) sid d ≤ 1 :=
  foldl_initUserStep_le_one db.users db today sid d h

theorem countKey_pos_of_exists (db : DB) (sid : Nat) (d : String)
    (h : logKeyExists db sid d = true) : 1 ≤ countKey db sid d := by
  obtain ⟨x, hx⟩ := Option.isSome_iff_exists.mp h
  exact countP_pos_of_find?_some _ hx

/-- Claim C5 (amended): `initDailySchedule` proper is idempotent — the
second run for the same day changes nothing — and, starting from a store
with at most one log per (schedule, day) key, it leaves exactly one log
per (user, schedule) for that day.  The first-contact seeding path
(`setupDefaultSchedules`) does not have this property: it duplicates
schedules and records on a second run (see the counterexample). -/
theorem C5_initDailySchedule_idempotent (db : DB) (today : String)
    (h : ∀ sid, countKey db sid today ≤ 1) :
    initDailySchedule (initDailySchedule db today) today = initDailySchedule db today ∧
    (∀ u ∈ db.users, ∀ s ∈ getSchedulesByUserId db u.id,
      countKey (initDailySchedule db today) s.id today = 1) := by
  constructor
  · show (initDailySchedule db today).users.foldl (initUserStep today)
      (initDailySchedule db today) = initDailySchedule db today
    apply foldl_initUserStep_noop
    intro u hu s hs
    have hu' : u ∈ db.users := initDailySchedule_users db today ▸ hu
    have hs' : s ∈ getSchedulesByUserId db u.id := by
      rw [← getSchedulesByUserId_congr (initDailySchedule db today) db u.id
        (initDailySchedule_schedules db today)]
      exact hs
    exact initDailySchedule_covers db today u hu' s hs'
  · intro u hu s hs
    have h1 : 1 ≤ countKey (initDailySchedule db today) s.id today :=
      countKey_pos_of_exists _ _ _ (initDailySchedule_covers db today u hu s hs)
    have h2 : countKey (initDailySchedule db today) s.id today ≤ 1 :=
      initDailySchedule_le_one db today s.id today (h s.id)
    omega

/-- A one-user, one-schedule, no-log store. -/
def dbOneSched : DB :=
  { users := [userU], schedules := [lunchSched], medicationLogs := [], nextId := 20 }

theorem C5_initDailySchedule_idempotent_witness :
    initDailySchedule (initDailySchedule dbOneSched "2025-01-01") "2025-01-01" =
      initDailySchedule dbOneSched "2025-01-01" ∧
    countKey (initDailySchedule dbOneSched "2025-01-01") lunchSched.id "2025-01-01" = 1 :=
  have h := C5_initDailySchedule_idempotent dbOneSched "2025-01-01"
    (fun sid => by simp [countKey, dbOneSched, List.countP_nil])
  ⟨h.1, h.2 userU (by decide) lunchSched (by decide)⟩

theorem C10_update_scoping_witness :
    updateMedicationLogStatus storeW 99 Status.TAKEN updW = (none, storeW) ∧
    (updateMedicationLogStatus storeW 11 Status.TAKEN updW).1.isSome = true ∧
    (updateMedicationLogStatus storeW 11 Status.TAKEN updW).2[0]? = storeW[0]? :=
  ⟨(C10_update_scoping storeW 99 Status.TAKEN updW).1 (by decide),
   (C10_update_scoping storeW 11 Status.TAKEN updW).2.1 ⟨otherLog, by decide, rfl⟩,
   (C10_update_scoping storeW 11 Status.TAKEN updW).2.2 0
     (fun l hl => Option.some.inj hl ▸ (by decide : freshLog.id ≠ 11))⟩

end MedBot
